import Mathlib

/-!
Shallow embedding of the frame-pacing core of glpaper-rs.

Embedded source files:
* `src/renderer/output_surface.rs` — `OutputSurface` (fields relevant to the
  draw/present lifecycle), `set_fft`, `draw`, `render`, and the fragment
  shader loader (`UNSUPPORTED_UNIFORMS`, `format_shader_src`,
  `load_fragment_shader`).
* `src/renderer/renderable.rs` — `Renderable::frame_start`.
* `src/handlers/background_layer.rs` — the background registry
  (`configure_output`, `by_output`), the scheduler-tick entry point
  (`BackgroundLayer::draw`) and the compositor `frame` handler.

Machine floats (`f32`) are embedded as exact rationals: every operation the
claims touch is an assignment or an exact subtraction/division by 10, so the
rational model agrees with the floating computation on the concrete inputs
used below.  GPU side effects are made explicit: the submission counter, the
staged uniform snapshot, the wait/present/commit effects of `render`.
-/

namespace Glpaper

/-- Host-side uniform values of `IGlobals` (`output_surface.rs` lines
144-155): the `host` field of each `BufferBinding`.  `iMouse` is the
`[f32; 4]` whose slot 0 receives the audio energy in `set_fft`. -/
structure IGlobalsM where
  iGlobalTime : ℚ
  iTime : ℚ
  iResolution : ℚ × ℚ × ℚ
  iMouse : ℚ × ℚ × ℚ × ℚ
  iFrame : ℤ
  deriving DecidableEq, Repr

/-- State of `OutputSurface` (`output_surface.rs` lines 36-51) restricted to
the fields the draw/present lifecycle reads or writes, plus an explicit
model of the GPU queue: `staged` is the last uniform snapshot written to the
GPU-visible buffers (`IGlobals::stage`), `submissionCount` counts command
buffers submitted on the queue, and `nextSubmission` generates the
monotonically increasing submission indices `queue.submit` returns.
`start_time` is the absolute `Instant`; `draw` receives the current wall
clock as a parameter and computes `elapsed = now - start_time`. -/
structure OutputSurfaceM where
  start_time : ℚ
  submitted_frame : Option (ℕ × ℕ)
  exp : ℚ
  globals : IGlobalsM
  staged : Option IGlobalsM
  submissionCount : ℕ
  nextSubmission : ℕ
  deriving DecidableEq, Repr

/-- Model of `OutputSurface::set_fft` (`output_surface.rs` lines 938-953): stores the
incoming medium-band value into `i_mouse.host[0]` and rewinds `start_time`
by `med_fv / 10` seconds; `max_fv` is unused and the commented-out decay
logic is absent. -/
def set_fft (s : OutputSurfaceM) (med_fv max_fv : ℚ) : OutputSurfaceM :=
  let _ := max_fv
  { s with
    globals := { s.globals with
      iMouse := (med_fv, s.globals.iMouse.2.1, s.globals.iMouse.2.2.1,
        s.globals.iMouse.2.2.2) }
    start_time := s.start_time - med_fv / 10 }

/-- Model of `OutputSurface::draw` (`output_surface.rs` lines 964-1008).  The
non-blocking `device.poll(Maintain::Poll)` touches no `OutputSurface`
field.  If a frame is already in flight the call returns `Ok(())` having
changed nothing.  Otherwise the host time uniforms are updated, the
swapchain texture is acquired (`acquire` models the fallible
`surface.get_current_texture()`; on `Err` the error propagates via `?` with
the time uniforms already written), the uniforms are staged, one command
buffer is encoded and submitted, and the texture/submission-index pair is
stored in `submitted_frame`. -/
def draw (s : OutputSurfaceM) (now : ℚ) (acquire : Except String ℕ) :
    Except String Unit × OutputSurfaceM :=
  if s.submitted_frame.isSome then (Except.ok (), s)
  else
    let time := now - s.start_time
    let g := { s.globals with iTime := time, iGlobalTime := time }
    let s1 := { s with globals := g }
    match acquire with
    | Except.error e => (Except.error e, s1)
    | Except.ok tex =>
      let i := s1.nextSubmission
      (Except.ok (),
        { s1 with
          staged := some g
          submissionCount := s1.submissionCount + 1
          nextSubmission := i + 1
          submitted_frame := some (tex, i) })

/-- Observable GPU/compositor effects of one `OutputSurface::render` call:
which submission index was waited for, which texture was presented, and
whether the Wayland layer surface was committed. -/
structure RenderEffects where
  waited : Option ℕ
  presented : Option ℕ
  committed : Bool
  deriving DecidableEq, Repr

/-- Model of `OutputSurface::render` (`output_surface.rs` lines 1019-1027): if a
frame is in flight, wait for its submission index, present its texture and
clear the slot; in every case commit the layer surface and return `Ok`. -/
def render (s : OutputSurfaceM) : RenderEffects × OutputSurfaceM :=
  match s.submitted_frame with
  | some (tex, i) =>
    ({ waited := some i, presented := some tex, committed := true },
      { s with submitted_frame := none })
  | none =>
    ({ waited := none, presented := none, committed := true }, s)

/-- Number of outstanding in-flight frames held by the surface. -/
def inFlight (s : OutputSurfaceM) : ℕ :=
  if s.submitted_frame.isSome then 1 else 0

/-- Fold a list of `draw` calls (wall-clock time and acquisition outcome for
each) over a surface state, keeping only the state. -/
def applyDraws : List (ℚ × Except String ℕ) → OutputSurfaceM → OutputSurfaceM
  | [], s => s
  | (n, a) :: rest, s => applyDraws rest (draw s n a).2

/-- A concrete freshly-initialised surface state, matching the `Ok(Self {..})`
at the end of `OutputSurface::new` (`start_time: Instant::now()` taken as
time 0, `submitted_frame: None`, `exp: 0.9`, zeroed host uniforms with the
resolution of a 1920x1080 output). -/
def g0 : IGlobalsM :=
  { iGlobalTime := 0, iTime := 0, iResolution := (1920, 1080, 0),
    iMouse := (0, 0, 0, 0), iFrame := 0 }

/-- Fresh surface state; see `g0`. -/
def s0 : OutputSurfaceM :=
  { start_time := 0, submitted_frame := none, exp := 9/10, globals := g0,
    staged := none, submissionCount := 0, nextSubmission := 0 }

/-- State `s0` with a frame in flight: texture 0, submission index 0. -/
def sIF : OutputSurfaceM := { s0 with submitted_frame := some (0, 0) }

/-- State of `Renderable` (`renderable.rs` lines 48-56) restricted to the
frame-lifecycle fields; textures and views are identified by the id of the
acquired swapchain texture. -/
structure RenderableM where
  surface_texture : Option ℕ
  texture_view : Option ℕ
  deriving DecidableEq, Repr

/-- Model of `Renderable::frame_start` (`renderable.rs` lines 73-92): if a surface
texture from an unfinished frame is still held, `bail!` returns an error
and nothing changes; otherwise the next texture is acquired (the code
`.expect`s success, so the model takes the acquired id as a parameter) and
both the texture and its view are stored. -/
def frame_start (r : RenderableM) (acquired : ℕ) :
    Except String Unit × RenderableM :=
  if r.surface_texture.isSome then
    (Except.error "Non-finished wgpu::SurfaceTexture found.", r)
  else
    (Except.ok (),
      { r with surface_texture := some acquired, texture_view := some acquired })

/-- A `Renderable` holding an unfinished surface texture. -/
def rBusy : RenderableM := { surface_texture := some 0, texture_view := some 0 }

/-- Model of `OutputInfo` as used by `configure_output`: stored verbatim, only the
logical size matters to the claims. -/
structure OutputInfoM where
  logicalSize : ℤ × ℤ
  deriving DecidableEq, Repr

/-- One entry of `BackgroundLayer::backgrounds` — the `Background` struct
(`background_layer.rs` lines 40-47).  Outputs and layer surfaces are
identified by numeric ids. -/
structure BackgroundM where
  output : ℕ
  output_info : OutputInfoM
  layerSurfaceId : ℕ
  renderer : Option OutputSurfaceM
  deriving DecidableEq, Repr

/-- Registry state of `BackgroundLayer` (`background_layer.rs` lines
65-77): the `backgrounds` vector, plus an explicit id supply for newly
created layer surfaces and a count of `layer.commit()` calls issued while
creating them. -/
structure BackgroundLayerM where
  backgrounds : List BackgroundM
  nextLayerId : ℕ
  layerCommits : ℕ
  deriving DecidableEq, Repr

/-- Model of `Backgrounds::by_output` (`background_layer.rs` lines 60-62): first
entry whose output matches. -/
def by_output (bs : List BackgroundM) (out : ℕ) : Option BackgroundM :=
  bs.find? (fun b => b.output == out)

/-- Model of `BackgroundLayer::configure_output` (`background_layer.rs` lines
118-149): if an entry for this output already exists, return immediately;
otherwise create a layer surface (anchor, keyboard interactivity, one
commit) and push a new `Background` with `renderer: None`. -/
def configure_output (st : BackgroundLayerM) (out : ℕ) (info : OutputInfoM) :
    BackgroundLayerM :=
  if (by_output st.backgrounds out).isSome then st
  else
    { backgrounds := st.backgrounds ++
        [{ output := out, output_info := info,
           layerSurfaceId := st.nextLayerId, renderer := none }]
      nextLayerId := st.nextLayerId + 1
      layerCommits := st.layerCommits + 1 }

/-- Number of registry entries held for a given output. -/
def countFor (st : BackgroundLayerM) (out : ℕ) : ℕ :=
  (st.backgrounds.filter (fun b => b.output == out)).length

/-- Single-surface view of the `BackgroundLayer` event system: the number
of compositor frame callbacks registered and not yet fired
(`surface.frame(..)` registers one), together with the `renderer` slot of
the `Background` entry of the surface. -/
structure SysM where
  outstanding : ℕ
  renderer : Option OutputSurfaceM
  deriving DecidableEq, Repr

/-- Model of `LayerShellHandler::configure` for `BackgroundLayer`
(`background_layer.rs` lines 306-338), restricted to one surface.  With a
renderer already present it only calls `os.draw().unwrap()`.  With none it
builds the `OutputSurface` (`fresh`), registers one frame callback via
`surface.frame(qh, surface.clone())`, draws once, renders once (present +
commit) and stores the renderer. -/
def sysConfigure (fresh : OutputSurfaceM) (now : ℚ) (acq : Except String ℕ)
    (s : SysM) : SysM :=
  match s.renderer with
  | some os => { s with renderer := some (draw os now acq).2 }
  | none =>
    let os1 := (draw fresh now acq).2
    let os2 := (render os1).2
    { outstanding := s.outstanding + 1, renderer := some os2 }

/-- One scheduler tick: `BackgroundLayer::draw` (`background_layer.rs`
lines 102-108) calls `r.draw().unwrap()` on the renderer of the surface if one
exists.  No frame callback is registered by a tick. -/
def sysTick (now : ℚ) (acq : Except String ℕ) (s : SysM) : SysM :=
  match s.renderer with
  | some os => { s with renderer := some (draw os now acq).2 }
  | none => s

/-- Model of `CompositorHandler::frame` for `BackgroundLayer` (`background_layer.rs`
lines 289-303): one outstanding callback has fired (consuming it),
`surface.frame(_qh, surface.clone())` unconditionally registers exactly one
replacement, and the renderer, if present, is rendered (present + commit). -/
def sysFrameEvent (s : SysM) : SysM :=
  { outstanding := s.outstanding - 1 + 1,
    renderer := s.renderer.map (fun os => (render os).2) }

/-- Fold a list of scheduler ticks over the event system state. -/
def applyTicks : List (ℚ × Except String ℕ) → SysM → SysM
  | [], s => s
  | (n, a) :: rest, s => applyTicks rest (sysTick n a s)

/-- Command-buffer submissions performed so far by the renderer
(0 while no renderer exists). -/
def submissionsOf (s : SysM) : ℕ :=
  match s.renderer with
  | some os => os.submissionCount
  | none => 0

/-- Model of `UNSUPPORTED_UNIFORMS` (`output_surface.rs` lines 23-34): the nine
uniform names whose presence in a fragment shader source is rejected. -/
def UNSUPPORTED_UNIFORMS : List String :=
  ["iTimeDelta", "iChannelTime", "iChannelResolution", "iDate",
   "iSampleRate", "iChannel0", "iChannel1", "iChannel2", "iChannel3"]

/-- Rust `str::contains`: `needle` occurs as a contiguous substring of
`hay`. -/
def containsStr (hay needle : String) : Bool :=
  decide (needle.data <:+: hay.data)

/-- The fragment shader prefix `PREFIX` (`output_surface.rs` lines
360-371). -/
def PREFIX_SRC : String :=
  "\n#version 440 core\n\nlayout(binding=0) uniform float     iGlobalTime;\nlayout(binding=1) uniform float     iTime;\nlayout(binding=2) uniform vec3      iResolution;\nlayout(binding=3) uniform vec4      iMouse;\nlayout(binding=4) uniform int       iFrame;\n\nlayout(location=0) in vec2 fragCoord;\nlayout(location=0) out vec4 fragColor;\n"

/-- The fragment shader suffix `SUFFIX` (`output_surface.rs` lines
374-379). -/
def SUFFIX_SRC : String :=
  "\nvoid main() \x7b\n    fragColor = vec4(1.0, 1.0, 0.0, 0.0);\n    mainImage(fragColor, fragCoord);\n\x7d\n"

/-- Model of `format_shader_src` (`output_surface.rs` lines 415-417):
`format!("{}\n{}\n{}", PREFIX, src, SUFFIX)`. -/
def format_shader_src (src : String) : String :=
  PREFIX_SRC ++ "\n" ++ src ++ "\n" ++ SUFFIX_SRC

/-- The fields of `ArgValues` (`output_surface.rs` lines 381-413) consulted
by `load_fragment_shader`. -/
structure ArgValues where
  shaderpath : Option String
  examplename : Option String
  getid : Option String

/-- Outcome of opening and reading a shader file from disk. -/
inductive ReadResult where
  | openErr : ReadResult
  | readErr : ReadResult
  | content : String → ReadResult

/-- Environment of `load_fragment_shader`: the two example shader sources
compiled in via `include_str!` (`EXAMPLE_SEASCAPE_STR`,
`EXAMPLE_ELEMENTAL_RING_STR`; `DEFAULT_FRAG_SRC_STR` includes the same
`examples/seascape.frag` file as `EXAMPLE_SEASCAPE_STR`) and the file
system consulted for `shaderpath`. -/
structure ShaderEnv where
  seascape : String
  elementalRing : String
  readFile : String → ReadResult

/-- Source-selection stage of `load_fragment_shader` (`output_surface.rs`
lines 420-441): example name lookup, else file read, else the built-in
default source. -/
def selectFragSrc (av : ArgValues) (env : ShaderEnv) : Except String String :=
  match av.examplename with
  | some exampleName =>
    if exampleName = "seascape" then Except.ok env.seascape
    else if exampleName = "elemental-ring" then Except.ok env.elementalRing
    else Except.error ("no such example " ++ exampleName)
  | none =>
    match av.shaderpath with
    | some shaderpath =>
      match env.readFile shaderpath with
      | ReadResult.openErr => Except.error ("could not open " ++ shaderpath)
      | ReadResult.readErr => Except.error ("could not read " ++ shaderpath)
      | ReadResult.content c => Except.ok c
    | none => Except.ok env.seascape

/-- Rust `{:?}` rendering of a `Vec<String>`, as used in the
`"unsupported uniforms: {:?}"` error message. -/
def rustDebugStrList (l : List String) : String :=
  "[" ++ String.intercalate ", " (l.map (fun s => "\"" ++ s ++ "\"")) ++ "]"

/-- Model of `load_fragment_shader` (`output_surface.rs` lines 419-454): select the
source (early-returning its errors), collect the unsupported uniforms it
contains, and either wrap it with `format_shader_src` or report the
offending uniforms. -/
def load_fragment_shader (av : ArgValues) (env : ShaderEnv) :
    Except String String :=
  match selectFragSrc av env with
  | Except.error e => Except.error e
  | Except.ok frag_src_str =>
    let unsupported_uniforms :=
      UNSUPPORTED_UNIFORMS.filter (fun uu => containsStr frag_src_str uu)
    if unsupported_uniforms.isEmpty then
      Except.ok (format_shader_src frag_src_str)
    else
      Except.error ("unsupported uniforms: " ++
        rustDebugStrList unsupported_uniforms)

/-- An empty registry for the C5 witness scenario. -/
def bl0 : BackgroundLayerM :=
  { backgrounds := [], nextLayerId := 0, layerCommits := 0 }

/-- The output info of a 1920x1080 output ("DP-1" in the spec scenario). -/
def infoDP1 : OutputInfoM := { logicalSize := (1920, 1080) }

/-- The initial event-system state: no callback registered, no renderer. -/
def sysStart : SysM := { outstanding := 0, renderer := none }

/-- State after the first layer-surface configure event: one callback
registered, renderer created, first frame drawn (submission 1) and
presented. -/
def sysConf : SysM := sysConfigure s0 0 (Except.ok 0) sysStart

/-- State `sysConf` after five scheduler ticks with no compositor callback in
between (each tick could acquire a texture). -/
def sys5 : SysM :=
  applyTicks [(1, Except.ok 1), (2, Except.ok 2), (3, Except.ok 3),
    (4, Except.ok 4), (5, Except.ok 5)] sysConf

/-- A shader environment with empty sources, for the C9 counterexample. -/
def envEmpty : ShaderEnv :=
  { seascape := "", elementalRing := "",
    readFile := fun _ => ReadResult.openErr }

/-- An `ArgValues` selecting a nonexistent example. -/
def avNope : ArgValues :=
  { shaderpath := none, examplename := some "nope", getid := none }

/-- An `ArgValues` with no example and no shader path (default source). -/
def avDefault : ArgValues :=
  { shaderpath := none, examplename := none, getid := none }

/-- A shader environment whose built-in source uses `iChannel0`. -/
def envChannel : ShaderEnv :=
  { seascape := "uses iChannel0 only", elementalRing := "",
    readFile := fun _ => ReadResult.openErr }

/-- C1: on one render surface the `submitted_frame` slot holds at most one
in-flight frame at any time; `draw()` called while a frame is in flight
returns `Ok` with the surface state unchanged (in particular no command
buffer is submitted), and a `draw()` call submits a command buffer only
when the slot had been cleared (`submitted_frame = none`), so frame N+1 is
never encoded before the present of frame N cleared the slot. -/
theorem C1_single_in_flight (s : OutputSurfaceM) (now : ℚ)
    (acq : Except String ℕ) :
    inFlight ((draw s now acq).2) ≤ 1 ∧
    inFlight ((render s).2) ≤ 1 ∧
    (s.submitted_frame.isSome = true → draw s now acq = (Except.ok (), s)) ∧
    (((draw s now acq).2).submissionCount ≠ s.submissionCount →
      s.submitted_frame = none) := by
  refine ⟨?_, ?_, ?_, ?_⟩
  · dsimp [inFlight]; split <;> simp
  · dsimp [inFlight]; split <;> simp
  · intro h; simp [draw, h]
  · intro h
    by_cases hsf : s.submitted_frame.isSome
    · exact absurd (by simp [draw, hsf]) h
    · exact Option.not_isSome_iff_eq_none.mp hsf

/-- Witness for C1 at a concrete in-flight state: `draw` is a no-op. -/
theorem C1_single_in_flight_witness :
    draw sIF 3 (Except.ok 1) = (Except.ok (), sIF) :=
  (C1_single_in_flight sIF 3 (Except.ok 1)).2.2.1 rfl

/-- C3: `present()` (`OutputSurface::render`) with an in-flight frame waits
for the submission index of that frame, presents the held texture and clears
`submitted_frame`; with no in-flight frame it is a safe no-op — the model
is a total function (no abort), nothing is presented and the state is
unchanged. -/
theorem C3_present_spec (s : OutputSurfaceM) (tex i : ℕ) :
    (s.submitted_frame = some (tex, i) →
      (render s).1.waited = some i ∧ (render s).1.presented = some tex ∧
        ((render s).2).submitted_frame = none) ∧
    (s.submitted_frame = none →
      (render s).1.waited = none ∧ (render s).1.presented = none ∧
        (render s).2 = s) := by
  constructor
  · intro h; simp [render, h]
  · intro h; simp [render, h]

/-- Witness for C3 at concrete states: an in-flight frame is waited on,
presented and cleared; an empty slot presents nothing and changes
nothing. -/
theorem C3_present_spec_witness :
    ((render sIF).1.waited = some 0 ∧ (render sIF).1.presented = some 0 ∧
      ((render sIF).2).submitted_frame = none) ∧ (render s0).2 = s0 :=
  ⟨(C3_present_spec sIF 0 0).1 rfl, ((C3_present_spec s0 0 0).2 rfl).2.2⟩

/-- C10: every `OutputSurface::render` call commits the layer surface,
also when no frame is in flight and nothing is presented. -/
theorem C10_commit_unconditional (s : OutputSurfaceM) :
    ((render s).1).committed = true ∧
    ((render { s with submitted_frame := none }).1).committed = true := by
  constructor
  · rcases h : s.submitted_frame with _ | ⟨tex, i⟩ <;> simp [render, h]
  · simp [render]

/-- Lemma: `draw` never writes the `i_mouse` host values (the commented-out decay
logic is absent from the compiled code). -/
theorem draw_iMouse (s : OutputSurfaceM) (now : ℚ) (acq : Except String ℕ) :
    ((draw s now acq).2).globals.iMouse = s.globals.iMouse := by
  rcases acq with e | tex <;>
    by_cases h : s.submitted_frame.isSome <;> simp [draw, h]

/-- Any sequence of `draw` calls leaves the `i_mouse` host values
untouched. -/
theorem applyDraws_iMouse (l : List (ℚ × Except String ℕ))
    (s : OutputSurfaceM) :
    ((applyDraws l s)).globals.iMouse = s.globals.iMouse := by
  induction l generalizing s with
  | nil => rfl
  | cons p rest ih =>
    rcases p with ⟨n, a⟩
    rw [applyDraws, ih, draw_iMouse]

/-- C2 counterexample: `set_fft` does not combine with the previous stored
value by a maximum (pushing 0.2 after 0.5 stores 0.2, not max 0.2 0.5 =
0.5), and `draw` does not attenuate the stored energy (after pushing
low = 0.9 and one draw the stored energy is exactly 0.9, not within even a
generous 1/8 of 0.9 * 0.8). -/
theorem C2_counterexample :
    ((set_fft (set_fft s0 (1/2) (1/2)) (1/5) (1/5)).globals.iMouse).1
        = 1/5 ∧
    ¬ ((set_fft (set_fft s0 (1/2) (1/2)) (1/5) (1/5)).globals.iMouse).1
        = max (1/5 : ℚ) (1/2) ∧
    ((applyDraws [(1, Except.ok 0)]
        (set_fft s0 (9/10) (2/10))).globals.iMouse).1 = 9/10 ∧
    ¬ |((applyDraws [(1, Except.ok 0)]
        (set_fft s0 (9/10) (2/10))).globals.iMouse).1
          - (9/10) * (8/10)| ≤ 1/8 := by
  refine ⟨rfl, ?_, rfl, ?_⟩
  · show ¬ (1/5 : ℚ) = max (1/5 : ℚ) (1/2)
    rw [max_eq_right (by norm_num : (1/5 : ℚ) ≤ 1/2)]
    norm_num
  · show ¬ |(9/10 : ℚ) - (9/10) * (8/10)| ≤ 1/8
    rw [show (9/10 : ℚ) - (9/10) * (8/10) = 9/50 by norm_num,
      abs_of_pos (by norm_num : (0 : ℚ) < 9/50)]
    norm_num

/-- C2 (amended): `set_fft` overwrites the stored energy with the incoming
low-band value (no maximum with the previous value; the high-band argument
is unused) and `draw` performs no attenuation, so after pushing
`(low, high)` the stored energy is exactly `low` and stays `low` across
any number of draws with no further pushes. -/
theorem C2_energy_overwrite_no_decay (s : OutputSurfaceM) (low high : ℚ)
    (ticks : List (ℚ × Except String ℕ)) :
    ((set_fft s low high).globals.iMouse).1 = low ∧
    ((applyDraws ticks (set_fft s low high)).globals.iMouse).1 = low := by
  refine ⟨rfl, ?_⟩
  rw [applyDraws_iMouse]
  rfl

/-- C4 counterexample: when acquisition fails during `draw()` the error is
returned and nothing is submitted, but the surface state is not unchanged —
the host time uniforms were already recomputed before the acquisition
attempt, so the resulting state differs from the initial one. -/
theorem C4_counterexample :
    (draw s0 5 (Except.error "Outdated")).1 = Except.error "Outdated" ∧
    ((draw s0 5 (Except.error "Outdated")).2).submitted_frame = none ∧
    (draw s0 5 (Except.error "Outdated")).2 ≠ s0 := by
  refine ⟨rfl, rfl, ?_⟩
  intro h
  have h2 := congrArg (fun st => st.globals.iTime) h
  simp [draw, s0, g0] at h2

/-- C4 (amended): when no frame is in flight and swapchain acquisition
fails, `draw()` returns the error to the caller (not swallowed, not
retried), no command buffer is submitted, nothing is staged and
`submitted_frame` stays `none`; the only state change on this error path is
the host time uniforms (`i_time`, `i_global_time`), which were updated
before the acquisition attempt. -/
theorem C4_acquire_fail_amended (s : OutputSurfaceM) (now : ℚ) (e : String)
    (h : s.submitted_frame = none) :
    draw s now (Except.error e) =
      (Except.error e,
        { s with globals := { s.globals with
            iTime := now - s.start_time,
            iGlobalTime := now - s.start_time } }) ∧
    ((draw s now (Except.error e)).2).submitted_frame = none ∧
    ((draw s now (Except.error e)).2).submissionCount = s.submissionCount ∧
    ((draw s now (Except.error e)).2).staged = s.staged := by
  refine ⟨?_, ?_, ?_, ?_⟩ <;> simp [draw, h]

/-- Witness for C4 (amended) at a concrete state. -/
theorem C4_acquire_fail_amended_witness :
    draw s0 5 (Except.error "Outdated") =
      (Except.error "Outdated",
        { s0 with globals := { s0.globals with
            iTime := 5 - s0.start_time,
            iGlobalTime := 5 - s0.start_time } }) :=
  (C4_acquire_fail_amended s0 5 "Outdated" rfl).1

/-- C7 counterexample: two pushes before a draw agree with a single push of
the last value on the energy uniform, but the earlier unread value does
leave a trace in the surface state — each `set_fft` call rewinds
`start_time`, so the states differ and the time uniform consumed by the
next draw differs. -/
theorem C7_counterexample :
    ((set_fft (set_fft s0 (1/2) (1/2)) (1/10) (1/10)).globals.iMouse).1
      = ((set_fft s0 (1/10) (1/10)).globals.iMouse).1 ∧
    set_fft (set_fft s0 (1/2) (1/2)) (1/10) (1/10)
      ≠ set_fft s0 (1/10) (1/10) ∧
    ((draw (set_fft (set_fft s0 (1/2) (1/2)) (1/10) (1/10)) 1
        (Except.ok 0)).2).globals.iTime
      ≠ ((draw (set_fft s0 (1/10) (1/10)) 1
        (Except.ok 0)).2).globals.iTime := by
  refine ⟨rfl, ?_, ?_⟩
  · intro h
    have h2 := congrArg (fun st => st.start_time) h
    simp [set_fft, s0] at h2
  · intro h
    simp [draw, set_fft, s0, g0] at h
    norm_num at h

/-- C7 (amended): `set_fft` is a total, non-blocking field update with
last-write-wins semantics on the energy uniform (after two pushes the
stored energy is the last low-band value; nothing is queued, staged or
submitted), but each call additionally rewinds `start_time` by one tenth of
its low-band value, so earlier unread pushes leave a cumulative trace in
the time offset. -/
theorem C7_last_write_wins_with_time_trace (s : OutputSurfaceM)
    (l1 h1 l2 h2 : ℚ) :
    ((set_fft s l1 h1).globals.iMouse).1 = l1 ∧
    ((set_fft (set_fft s l1 h1) l2 h2).globals.iMouse).1 = l2 ∧
    (set_fft (set_fft s l1 h1) l2 h2).start_time
      = s.start_time - l1 / 10 - l2 / 10 ∧
    (set_fft s l1 h1).submitted_frame = s.submitted_frame ∧
    (set_fft s l1 h1).staged = s.staged ∧
    (set_fft s l1 h1).submissionCount = s.submissionCount :=
  ⟨rfl, rfl, rfl, rfl, rfl, rfl⟩

/-- C8 counterexample: `Renderable::frame_start` called while a surface
texture from an unfinished frame is still held does leave the state
unchanged and does not abort, but it returns an error — not the
successful no-op the claim states. -/
theorem C8_counterexample :
    (frame_start rBusy 7).1
      = Except.error "Non-finished wgpu::SurfaceTexture found." ∧
    (frame_start rBusy 7).1 ≠ Except.ok () ∧
    (frame_start rBusy 7).2 = rBusy := by
  refine ⟨rfl, by simp [frame_start, rBusy], rfl⟩

/-- C8 (amended): the two guards behave differently: `OutputSurface::draw`
while a frame is in flight returns `Ok` with the state unchanged (a true
no-op), while `Renderable::frame_start` with an unfinished surface texture
returns an `Err` with the state unchanged; neither aborts the process. -/
theorem C8_guards_amended (s : OutputSurfaceM) (now : ℚ)
    (acq : Except String ℕ) (r : RenderableM) (t : ℕ) :
    (s.submitted_frame.isSome = true → draw s now acq = (Except.ok (), s)) ∧
    (r.surface_texture.isSome = true →
      frame_start r t =
        (Except.error "Non-finished wgpu::SurfaceTexture found.", r)) := by
  constructor
  · intro h; simp [draw, h]
  · intro h; simp [frame_start, h]

/-- Witness for C8 (amended) at concrete guarded states. -/
theorem C8_guards_amended_witness :
    draw sIF 2 (Except.ok 5) = (Except.ok (), sIF) ∧
    frame_start rBusy 7 =
      (Except.error "Non-finished wgpu::SurfaceTexture found.", rBusy) :=
  ⟨(C8_guards_amended sIF 2 (Except.ok 5) rBusy 7).1 rfl,
   (C8_guards_amended sIF 2 (Except.ok 5) rBusy 7).2 rfl⟩

/-- Lemma: `by_output` finds an entry exactly when the registry holds at least one
entry for the output. -/
theorem by_output_isSome_iff (bs : List BackgroundM) (out : ℕ) :
    (by_output bs out).isSome = true ↔
      0 < (bs.filter (fun b => b.output == out)).length := by
  rw [by_output]
  simp only [List.find?_isSome, List.length_pos, ne_eq,
    List.filter_eq_nil_iff]
  push_neg
  simp

/-- C5: the first configure event for an output creates exactly one
registry entry for it; any configure event for an output that already has
an entry returns with the whole registry state unchanged (so the count
stays exactly 1 after a second configure and the existing entry is not
replaced). -/
theorem C5_configure_once (st : BackgroundLayerM) (out : ℕ)
    (info info2 : OutputInfoM) :
    (countFor st out = 0 →
      countFor (configure_output st out info) out = 1) ∧
    (0 < countFor st out → configure_output st out info = st) ∧
    (countFor st out = 0 →
      configure_output (configure_output st out info) out info2
        = configure_output st out info) := by
  have hpos : ∀ st2 : BackgroundLayerM, 0 < countFor st2 out →
      configure_output st2 out info2 = st2 := by
    intro st2 h2
    unfold configure_output
    rw [if_pos ((by_output_isSome_iff st2.backgrounds out).mpr h2)]
  refine ⟨?_, ?_, ?_⟩
  · intro h
    have hb : (by_output st.backgrounds out).isSome = false := by
      cases hI : (by_output st.backgrounds out).isSome with
      | false => rfl
      | true =>
        exfalso
        have := (by_output_isSome_iff st.backgrounds out).mp hI
        unfold countFor at h
        omega
    unfold configure_output countFor
    rw [if_neg (by simp [hb])]
    unfold countFor at h
    simp [List.filter_append, h, List.length_eq_zero.mp h]
  · intro h
    unfold configure_output
    rw [if_pos ((by_output_isSome_iff st.backgrounds out).mpr h)]
  · intro h
    apply hpos
    have hb : (by_output st.backgrounds out).isSome = false := by
      cases hI : (by_output st.backgrounds out).isSome with
      | false => rfl
      | true =>
        exfalso
        have := (by_output_isSome_iff st.backgrounds out).mp hI
        unfold countFor at h
        omega
    unfold configure_output countFor
    rw [if_neg (by simp [hb])]
    unfold countFor at h
    simp [List.filter_append, List.length_eq_zero.mp h]

/-- Witness for C5: output 1 ("DP-1", 1920x1080) configured on an empty
registry yields exactly one entry, and a second configure event for the
same output leaves the registry unchanged. -/
theorem C5_configure_once_witness :
    countFor (configure_output bl0 1 infoDP1) 1 = 1 ∧
    configure_output (configure_output bl0 1 infoDP1) 1 infoDP1
      = configure_output bl0 1 infoDP1 :=
  ⟨(C5_configure_once bl0 1 infoDP1 infoDP1).1 rfl,
   (C5_configure_once bl0 1 infoDP1 infoDP1).2.2 rfl⟩

/-- Across any sequence of `draw` calls, at most one command buffer beyond
the starting count is ever submitted while nothing presents: once a draw
succeeds the slot is occupied and every further draw is a no-op. -/
theorem applyDraws_submission_bound (l : List (ℚ × Except String ℕ))
    (s : OutputSurfaceM) :
    (applyDraws l s).submissionCount ≤
      s.submissionCount + (if s.submitted_frame.isSome then 0 else 1) := by
  induction l generalizing s with
  | nil => simp [applyDraws]
  | cons p rest ih =>
    rcases p with ⟨n, a⟩
    rw [applyDraws]
    by_cases h : s.submitted_frame.isSome
    · have hd : draw s n a = (Except.ok (), s) := by simp [draw, h]
      rw [hd]
      exact (ih s).trans (by simp [h])
    · rcases a with e | tex
      · have h1 : ((draw s n (Except.error e)).2).submissionCount
            = s.submissionCount := by simp [draw, h]
        have h2 : ((draw s n (Except.error e)).2).submitted_frame
            = s.submitted_frame := by simp [draw, h]
        refine (ih _).trans ?_
        rw [h1, h2]
      · have h1 : ((draw s n (Except.ok tex)).2).submissionCount
            = s.submissionCount + 1 := by simp [draw, h]
        have h2 : ((draw s n (Except.ok tex)).2).submitted_frame.isSome
            = true := by simp [draw, h]
        refine (ih _).trans ?_
        rw [h1, h2]
        simp [h]

/-- Scheduler ticks never register a frame callback: the outstanding count
is preserved by any sequence of ticks. -/
theorem applyTicks_outstanding (l : List (ℚ × Except String ℕ)) (s : SysM) :
    (applyTicks l s).outstanding = s.outstanding := by
  induction l generalizing s with
  | nil => rfl
  | cons p rest ih =>
    rcases p with ⟨n, a⟩
    rw [applyTicks, ih]
    cases h : s.renderer <;> simp [sysTick, h]

/-- Ticks act on the renderer exactly as the corresponding `draw` calls. -/
theorem applyTicks_renderer_some (l : List (ℚ × Except String ℕ)) (o : ℕ)
    (os : OutputSurfaceM) :
    applyTicks l { outstanding := o, renderer := some os } =
      { outstanding := o, renderer := some (applyDraws l os) } := by
  induction l generalizing os with
  | nil => rfl
  | cons p rest ih =>
    rcases p with ⟨n, a⟩
    rw [applyTicks]
    show applyTicks rest { outstanding := o, renderer := some ((draw os n a).2) }
      = _
    rw [ih, applyDraws]

/-- Ticks are no-ops while no renderer exists. -/
theorem applyTicks_renderer_none (l : List (ℚ × Except String ℕ)) (s : SysM)
    (h : s.renderer = none) : applyTicks l s = s := by
  induction l with
  | nil => rfl
  | cons p rest ih =>
    rcases p with ⟨n, a⟩
    rw [applyTicks]
    have hs : sysTick n a s = s := by simp [sysTick, h]
    rw [hs, ih]

/-- C6 counterexample: five scheduler ticks before any compositor callback
do leave exactly one outstanding callback request, but they do not cause
zero draws — the first tick finds the `submitted_frame` slot free and
encodes and submits one frame (submission count goes from 1 to 2). -/
theorem C6_counterexample :
    sys5.outstanding = 1 ∧
    submissionsOf sysConf = 1 ∧
    submissionsOf sys5 = 2 ∧
    ¬ submissionsOf sys5 = submissionsOf sysConf := by
  refine ⟨rfl, rfl, rfl, by decide⟩

/-- C6 (amended): the code has no per-surface callback tracker and no
`request_callback` guard; instead, scheduler ticks
(`BackgroundLayer::draw`) never register compositor callbacks — any number
of ticks leaves the outstanding count unchanged (so after the configure
event exactly one request stays outstanding) — and each received frame
callback consumes one request and unconditionally registers exactly one
replacement.  Ticks do draw, however: across any tick sequence with no
intervening callback at most one command buffer is submitted (not zero),
after which the in-flight guard makes further ticks no-ops. -/
theorem C6_no_tracker_ticks (ticks : List (ℚ × Except String ℕ))
    (s : SysM) :
    (applyTicks ticks s).outstanding = s.outstanding ∧
    submissionsOf (applyTicks ticks s) ≤ submissionsOf s + 1 ∧
    (1 ≤ s.outstanding →
      (sysFrameEvent s).outstanding = s.outstanding) := by
  refine ⟨applyTicks_outstanding ticks s, ?_, ?_⟩
  · cases h : s.renderer with
    | none =>
      rw [applyTicks_renderer_none ticks s h]
      exact Nat.le_succ _
    | some os =>
      have hs : s = { outstanding := s.outstanding, renderer := some os } := by
        cases s
        simp only at h
        rw [h]
      rw [hs, applyTicks_renderer_some]
      show (applyDraws ticks os).submissionCount ≤ os.submissionCount + 1
      exact (applyDraws_submission_bound ticks os).trans (by split <;> omega)
  · intro h1
    show s.outstanding - 1 + 1 = s.outstanding
    omega

/-- Witness for C6 (amended): after the configure event (one outstanding
request), two ticks preserve the single outstanding request, and a frame
event keeps it at one. -/
theorem C6_no_tracker_ticks_witness :
    (applyTicks [(1, Except.ok 1), (2, Except.ok 2)] sysConf).outstanding
      = sysConf.outstanding ∧
    (sysFrameEvent sysConf).outstanding = sysConf.outstanding :=
  ⟨(C6_no_tracker_ticks [(1, Except.ok 1), (2, Except.ok 2)] sysConf).1,
   (C6_no_tracker_ticks [(1, Except.ok 1), (2, Except.ok 2)] sysConf).2.2
     (by decide)⟩

/-- C9 counterexample: with an unknown example name the loader returns an
error although no shader source in the environment contains any of the
nine unsupported uniforms, so "`Err` if and only if the selected source
contains an unsupported uniform" fails (errors also arise from selection
itself). -/
theorem C9_counterexample :
    load_fragment_shader avNope envEmpty
      = Except.error "no such example nope" ∧
    UNSUPPORTED_UNIFORMS.filter
      (fun uu => containsStr envEmpty.seascape uu) = [] ∧
    UNSUPPORTED_UNIFORMS.filter
      (fun uu => containsStr envEmpty.elementalRing uu) = [] := by
  refine ⟨rfl, by decide, by decide⟩

/-- C9 (amended): `load_fragment_shader` succeeds iff source selection
succeeds (known example name, readable file, or the built-in default) and
the selected source contains none of the nine `UNSUPPORTED_UNIFORMS`; on
success the result is exactly `PREFIX`, a newline, the source, a newline,
then `SUFFIX`; if the selected source contains an unsupported uniform the
error names exactly the offending uniforms; and selection errors (unknown
example, unreadable file) are returned as such. -/
theorem C9_load_fragment_shader_spec (av : ArgValues) (env : ShaderEnv) :
    ((load_fragment_shader av env).isOk = true ↔
      ∃ src, selectFragSrc av env = Except.ok src ∧
        ∀ u ∈ UNSUPPORTED_UNIFORMS, containsStr src u = false) ∧
    (∀ s, load_fragment_shader av env = Except.ok s →
      ∃ src, selectFragSrc av env = Except.ok src ∧
        s = PREFIX_SRC ++ "\n" ++ src ++ "\n" ++ SUFFIX_SRC) ∧
    (∀ src, selectFragSrc av env = Except.ok src →
      (∃ u ∈ UNSUPPORTED_UNIFORMS, containsStr src u = true) →
      load_fragment_shader av env = Except.error ("unsupported uniforms: " ++
        rustDebugStrList (UNSUPPORTED_UNIFORMS.filter
          (fun uu => containsStr src uu)))) ∧
    (∀ e, selectFragSrc av env = Except.error e →
      load_fragment_shader av env = Except.error e) := by
  rcases heq : selectFragSrc av env with e | src
  · have hl : load_fragment_shader av env = Except.error e := by
      unfold load_fragment_shader
      rw [heq]
    refine ⟨?_, ?_, ?_, ?_⟩
    · rw [hl]
      constructor
      · intro h
        exact Bool.noConfusion h
      · rintro ⟨src, hsrc, _⟩
        exact absurd hsrc (by simp)
    · intro s hs
      rw [hl] at hs
      exact absurd hs (by simp)
    · intro src hsrc
      exact absurd hsrc (by simp)
    · intro e2 he2
      injection he2 with h2
      rw [hl, h2]
  · have hl : load_fragment_shader av env =
        if (UNSUPPORTED_UNIFORMS.filter
            (fun uu => containsStr src uu)).isEmpty then
          Except.ok (format_shader_src src)
        else
          Except.error ("unsupported uniforms: " ++
            rustDebugStrList (UNSUPPORTED_UNIFORMS.filter
              (fun uu => containsStr src uu))) := by
      unfold load_fragment_shader
      rw [heq]
    by_cases hemp : (UNSUPPORTED_UNIFORMS.filter
        (fun uu => containsStr src uu)).isEmpty = true
    · have hall : ∀ u ∈ UNSUPPORTED_UNIFORMS, containsStr src u = false := by
        intro u hu
        have hnil := List.isEmpty_iff.mp hemp
        have := List.filter_eq_nil_iff.mp hnil u hu
        simpa using this
      refine ⟨?_, ?_, ?_, ?_⟩
      · rw [hl, if_pos hemp]
        exact iff_of_true rfl ⟨src, rfl, hall⟩
      · intro s hs
        rw [hl, if_pos hemp] at hs
        injection hs with h2
        exact ⟨src, rfl, by rw [← h2]; rfl⟩
      · intro src2 hsrc2 hex
        injection hsrc2 with h2
        subst h2
        rcases hex with ⟨u, hu, hcu⟩
        rw [hall u hu] at hcu
        exact absurd hcu (by simp)
      · intro e2 he2
        exact absurd he2 (by simp)
    · refine ⟨?_, ?_, ?_, ?_⟩
      · rw [hl, if_neg hemp]
        constructor
        · intro h
          exact Bool.noConfusion h
        · rintro ⟨src2, hsrc2, hall2⟩
          injection hsrc2 with h2
          subst h2
          exfalso
          apply hemp
          rw [List.isEmpty_iff, List.filter_eq_nil_iff]
          intro u hu
          simp [hall2 u hu]
      · intro s hs
        rw [hl, if_neg hemp] at hs
        exact absurd hs (by simp)
      · intro src2 hsrc2 hex
        injection hsrc2 with h2
        subst h2
        rw [hl, if_neg hemp]
      · intro e2 he2
        exact absurd he2 (by simp)

/-- Witness for C9 (amended): the default source of `envChannel` contains
`iChannel0`, and the loader reports exactly that uniform. -/
theorem C9_load_fragment_shader_spec_witness :
    load_fragment_shader avDefault envChannel =
      Except.error ("unsupported uniforms: " ++
        rustDebugStrList ["iChannel0"]) := by
  have h := (C9_load_fragment_shader_spec avDefault envChannel).2.2.1
    "uses iChannel0 only" rfl ⟨"iChannel0", by decide, by decide⟩
  rwa [show UNSUPPORTED_UNIFORMS.filter
      (fun uu => containsStr "uses iChannel0 only" uu) = ["iChannel0"]
    by decide] at h

end Glpaper
